import Mathlib

/-!
Verification development for the document-aware analysis core of the
eConsult-Sentiment repository (src/document_analyzer.py).

The Python code is shallowly embedded: strings are Lean strings, the
floating-point scores are modelled exactly as rationals, dictionaries
holding fixed keys become structures, and the two external library
capabilities that the embedded code calls into (the sklearn TF-IDF
cosine-similarity computation and the NLTK sentence tokenizer) are
modelled as explicit parameters or as small spec-modelled functions,
as documented on their declarations.  Everything else is translated
from the source of DocumentAwareAnalyzer.
-/

namespace EConsult

/-! ## Basic Python string utilities -/

/-- Whitespace characters recognised by the Python regex class \s and by
str.split / str.strip (the ASCII portion, which is all the embedded code
relies on). -/
def pyIsSpace (c : Char) : Bool :=
  c = ' ' || c = '\t' || c = '\n' || c = '\r' || c = '\x0b' || c = '\x0c'

/-- Lean model of Python str.lower (ASCII case folding). -/
def pyLower (s : String) : String :=
  String.mk (s.data.map Char.toLower)

/-- Decides Python substring containment: needle occurs contiguously in hay.
This models the Python expression keyword in comment_lower. -/
def containsSub (needle : List Char) : List Char → Bool
  | [] => needle.isEmpty
  | c :: rest => needle.isPrefixOf (c :: rest) || containsSub needle rest

/-- Lean model of Python str.strip with no argument: remove leading and
trailing whitespace. -/
def pyStrip (s : String) : String :=
  String.mk (((s.data.dropWhile pyIsSpace).reverse.dropWhile pyIsSpace).reverse)

/-- Counts the maximal non-whitespace runs of a character list; this is the
length of Python str.split() with no argument.  The fuel argument only
bounds the recursion depth: every step consumes at least one character,
so fuel equal to the length of the list is never exhausted early. -/
def countTokensGo : Nat → List Char → Nat
  | 0, _ => 0
  | _ + 1, [] => 0
  | fuel + 1, c :: rest =>
    if pyIsSpace c then countTokensGo fuel rest
    else 1 + countTokensGo fuel (rest.dropWhile (fun x => !pyIsSpace x))

/-- Lean model of len(s.split()), the word count the source attaches to each
section. -/
def pyWordCount (s : String) : Nat :=
  countTokensGo s.data.length s.data

/-! ## numpy argmax and the Python max-by-key scan

np.argmax (used to pick the most relevant section) and Python max with a
key function (used to pick the primary intent category) both scan left to
right and replace the current best only on a strictly greater value, so
both return the first position attaining the maximum. -/

/-- Scanning loop: bi and bv are the index and value of the best element seen
so far, i is the index of the head of the remaining list. -/
def argmaxGo {α : Type} [LinearOrder α] : Nat → α → Nat → List α → Nat
  | bi, _, _, [] => bi
  | bi, bv, i, x :: xs => if bv < x then argmaxGo i x (i + 1) xs else argmaxGo bi bv (i + 1) xs

/-- Lean model of np.argmax: index of the first occurrence of the maximum
(0 on the empty list, which the embedded code never hits). -/
def np_argmax {α : Type} [LinearOrder α] : List α → Nat
  | [] => 0
  | x :: xs => argmaxGo 0 x 1 xs

/-! ## Section extraction (DocumentAwareAnalyzer._extract_document_sections)

The five regular-expression pattern families of the source are translated
into direct matchers.  Each of the five patterns has the shape
prefix (.*?) (?=marker|$) with re.DOTALL and re.IGNORECASE: the lazy
group stops at the first position where the marker of the same family
matches ahead, or at the end of the input (or just before a trailing
newline, which is where $ also matches).  The greedy sub-parts of each
prefix are deterministic, with the single exception of the trailing
number segment of pattern 2, where the regex engine gives the last
.digits segment back so that the mandatory punctuation can match; that
giveback is reproduced literally in matchP2. -/

/-- Matches a literal case-insensitively (re.IGNORECASE on ASCII); returns
the remainder on success. -/
def matchLitCI : List Char → List Char → Option (List Char)
  | [], l => some l
  | _ :: _, [] => none
  | a :: as, c :: cs => if a.toLower = c.toLower then matchLitCI as cs else none

/-- Matches a literal exactly; returns the remainder on success. -/
def matchLit : List Char → List Char → Option (List Char)
  | [], l => some l
  | _ :: _, [] => none
  | a :: as, c :: cs => if a = c then matchLit as cs else none

/-- Tries a list of alternative literals in order (regex alternation),
case-insensitively. -/
def tryAltsCI : List (List Char) → List Char → Option (List Char)
  | [], _ => none
  | a :: as, l =>
    match matchLitCI a l with
    | some r => some r
    | none => tryAltsCI as l

/-- Parses the repeated part of \d+(?:\.\d+)* : a maximal sequence of
.digits segments, each returned without its leading dot. -/
def numSegsGo : Nat → List Char → (List (List Char) × List Char)
  | 0, l => ([], l)
  | fuel + 1, l =>
    match l with
    | '.' :: r =>
      let (d, r1) := r.span Char.isDigit
      if d.isEmpty then ([], l)
      else
        let (segs, rest) := numSegsGo fuel r1
        (d :: segs, rest)
    | _ => ([], l)

/-- Parses \d+(?:\.\d+)* greedily: the leading digit run, the list of
segments, and the remainder. -/
def parseNum (l : List Char) : Option (List Char × List (List Char) × List Char) :=
  let (d0, r0) := l.span Char.isDigit
  if d0.isEmpty then none
  else
    let (segs, rest) := numSegsGo r0.length r0
    some (d0, segs, rest)

/-- Renders a parsed number group back to its matched text. -/
def renderNum (d0 : List Char) (segs : List (List Char)) : List Char :=
  d0 ++ (segs.map (fun d => '.' :: d)).flatten

/-- Consumes the optional punctuation [:\.]? . -/
def dropPunctOpt : List Char → List Char
  | c :: r => if c = ':' || c = '.' then r else c :: r
  | [] => []

/-- Lazy scan of the (.*?) group: the content grows one character at a time
and stops at the first suffix where the lookahead marker matches, at the
end of the text, or just before a trailing newline (the two positions
where $ matches without re.MULTILINE).  Returns the content and the
remainder from the stop position, which is where re.finditer resumes. -/
def scanContent (marker : List Char → Bool) : List Char → (List Char × List Char)
  | [] => ([], [])
  | c :: rest =>
    if marker (c :: rest) then ([], c :: rest)
    else if c = '\n' && rest.isEmpty then ([], [c])
    else
      let (content, r) := scanContent marker rest
      (c :: content, r)

/-- The five alternatives of the keyword group of pattern 1. -/
def p1Keywords : List (List Char) :=
  ["Section".data, "Clause".data, "Article".data, "Chapter".data, "Part".data]

/-- Lookahead marker of pattern 1: (?:Section|Clause|Article|Chapter|Part)\s+\d+ . -/
def markerP1 (l : List Char) : Bool :=
  match tryAltsCI p1Keywords l with
  | none => false
  | some r =>
    let (sp, r1) := r.span pyIsSpace
    !sp.isEmpty && !(r1.span Char.isDigit).1.isEmpty

/-- Pattern 1 matcher:
(?:Section|Clause|Article|Chapter|Part)\s+(\d+(?:\.\d+)*)[:\.]?\s*(.*?)(?=marker|$) . -/
def matchP1 (l : List Char) : Option (String × String × List Char) := do
  let r ← tryAltsCI p1Keywords l
  let (sp, r1) := r.span pyIsSpace
  if sp.isEmpty then none
  else
    let (d0, segs, r2) ← parseNum r1
    let r3 := dropPunctOpt r2
    let r4 := (r3.span pyIsSpace).2
    let (content, r5) := scanContent markerP1 r4
    some (String.mk (renderNum d0 segs), String.mk content, r5)

/-- Lookahead marker of pattern 2: \d+(?:\.\d+)*[:\.] .  With backtracking
taken into account this matches exactly when a digit run is followed by a
colon or a dot. -/
def markerP2 (l : List Char) : Bool :=
  let (d, r) := l.span Char.isDigit
  !d.isEmpty &&
    (match r with
     | ':' :: _ => true
     | '.' :: _ => true
     | _ => false)

/-- Shared tail of pattern 2 after its mandatory punctuation. -/
def matchP2Tail (idChars : List Char) (r : List Char) : String × String × List Char :=
  let r1 := (r.span pyIsSpace).2
  let (content, r2) := scanContent markerP2 r1
  (String.mk idChars, String.mk content, r2)

/-- Pattern 2 matcher: (\d+(?:\.\d+)*)[:\.]\s*(.*?)(?=marker|$) .  When the
character after the greedy number is not the mandatory punctuation, the
regex engine gives the last .digits segment back, the dot then serves as
the punctuation and the digits of that segment start the content. -/
def matchP2 (l : List Char) : Option (String × String × List Char) := do
  let (d0, segs, r) ← parseNum l
  match r with
  | ':' :: r1 => some (matchP2Tail (renderNum d0 segs) r1)
  | '.' :: r1 => some (matchP2Tail (renderNum d0 segs) r1)
  | _ =>
    match segs.getLast? with
    | some lastSeg => some (matchP2Tail (renderNum d0 segs.dropLast) (lastSeg ++ r))
    | none => none

/-- The literal of pattern 3. -/
def litP3 : List Char := "Amendment of section ".data

/-- Lookahead marker of pattern 3: Amendment of section \d+ . -/
def markerP3 (l : List Char) : Bool :=
  match matchLitCI litP3 l with
  | none => false
  | some r => !(r.span Char.isDigit).1.isEmpty

/-- Pattern 3 matcher: Amendment of section (\d+)[:\.]?\s*(.*?)(?=marker|$) . -/
def matchP3 (l : List Char) : Option (String × String × List Char) := do
  let r ← matchLitCI litP3 l
  let (d, r1) := r.span Char.isDigit
  if d.isEmpty then none
  else
    let r2 := dropPunctOpt r1
    let r3 := (r2.span pyIsSpace).2
    let (content, r4) := scanContent markerP3 r3
    some (String.mk d, String.mk content, r4)

/-- The literal of pattern 4. -/
def litP4 : List Char := "In section ".data

/-- Lookahead marker of pattern 4: In section \d+ . -/
def markerP4 (l : List Char) : Bool :=
  match matchLitCI litP4 l with
  | none => false
  | some r => !(r.span Char.isDigit).1.isEmpty

/-- Pattern 4 matcher: In section (\d+)[:\.]?\s*(.*?)(?=marker|$) . -/
def matchP4 (l : List Char) : Option (String × String × List Char) := do
  let r ← matchLitCI litP4 l
  let (d, r1) := r.span Char.isDigit
  if d.isEmpty then none
  else
    let r2 := dropPunctOpt r1
    let r3 := (r2.span pyIsSpace).2
    let (content, r4) := scanContent markerP4 r3
    some (String.mk d, String.mk content, r4)

/-- Characters of the class [A-Z\s] under re.IGNORECASE: ASCII letters and
whitespace. -/
def isHeadingChar (c : Char) : Bool :=
  c.isAlpha || pyIsSpace c

/-- Lookahead marker of pattern 5: [A-Z][A-Z\s]+[:\.] under re.IGNORECASE.
The greedy run cannot be usefully given back (a run character never equals
the punctuation), so it matches exactly when a letter, then at least one
more letter or whitespace character, then a colon or dot follow. -/
def markerP5 : List Char → Bool
  | [] => false
  | c :: r =>
    c.isAlpha &&
      (let (run, r1) := r.span isHeadingChar
       !run.isEmpty &&
         (match r1 with
          | ':' :: _ => true
          | '.' :: _ => true
          | _ => false))

/-- Pattern 5 matcher: ([A-Z][A-Z\s]+)[:\.]\s*(.*?)(?=marker|$) under
re.IGNORECASE. -/
def matchP5 : List Char → Option (String × String × List Char)
  | [] => none
  | c :: r =>
    if c.isAlpha then
      let (run, r1) := r.span isHeadingChar
      if run.isEmpty then none
      else
        match r1 with
        | ':' :: r2 =>
          let r3 := (r2.span pyIsSpace).2
          let (content, r4) := scanContent markerP5 r3
          some (String.mk (c :: run), String.mk content, r4)
        | '.' :: r2 =>
          let r3 := (r2.span pyIsSpace).2
          let (content, r4) := scanContent markerP5 r3
          some (String.mk (c :: run), String.mk content, r4)
        | _ => none
    else none

/-- Lean model of re.finditer for the patterns above: scan left to right,
restart one character further on failure, and resume at the match end on
success.  Every successful match consumes at least one character, so fuel
equal to the length of the text plus one never runs out before the scan
reaches the end. -/
def finditerGo (m : List Char → Option (String × String × List Char)) :
    Nat → List Char → List (String × String)
  | 0, _ => []
  | _ + 1, [] => []
  | fuel + 1, c :: rest =>
    match m (c :: rest) with
    | some (g1, g2, r) => (g1, g2) :: finditerGo m fuel r
    | none => finditerGo m fuel rest

/-- All matches of one pattern over the text, as (group 1, group 2) pairs. -/
def finditer (m : List Char → Option (String × String × List Char)) (text : List Char) :
    List (String × String) :=
  finditerGo m (text.length + 1) text

/-- Document section, the dict built by _extract_document_sections. -/
structure Section where
  id : String
  title : String
  content : String
  word_count : Nat
deriving DecidableEq, Inhabited

/-- Builds a section from one regex match, mirroring the loop body: both
groups are stripped and candidates whose content has at most 50
characters are discarded. -/
def sectionOfMatch (g : String × String) : Option Section :=
  let section_id := pyStrip g.1
  let section_content := pyStrip g.2
  if section_content.length > 50 then
    some { id := section_id, title := "Section " ++ section_id,
           content := section_content, word_count := pyWordCount section_content }
  else none

/-- The five pattern matchers in the priority order of section_patterns. -/
def sectionPatternMatchers : List (List Char → Option (String × String × List Char)) :=
  [matchP1, matchP2, matchP3, matchP4, matchP5]

/-- The structural-pattern phase of _extract_document_sections: every pattern
family contributes the qualifying sections of all its matches, in order. -/
def patternSections (document_text : String) : List Section :=
  (sectionPatternMatchers.map
    (fun m => (finditer m document_text.data).filterMap sectionOfMatch)).flatten

/-- Splitting loop of the sentence tokenizer model: a sentence ends at each
sentence-final punctuation mark, and a final fragment without one is its
own sentence. -/
def sentSplitGo : List Char → List Char → List String
  | acc, [] => if acc.isEmpty then [] else [String.mk acc.reverse]
  | acc, c :: rest =>
    if c = '.' || c = '!' || c = '?' then
      String.mk (acc.reverse ++ [c]) :: sentSplitGo [] rest
    else sentSplitGo (c :: acc) rest

/-- Modelled from the spec: the fallback path splits the document into
sentences with the NLTK sent_tokenize function, an external library
capability that is not part of this repository.  It is modelled as a
splitter that closes a sentence at each sentence-final punctuation mark;
like the library, it finds no sentences in the empty text and at least
one sentence in any non-empty text. -/
def sent_tokenize (text : String) : List String :=
  sentSplitGo [] text.data

/-- Chunking loop of the artificial-section fallback: the translation of
for i in range(0, len(sentences), chunk_size) with one section appended
per non-empty chunk sentences[i : i + chunk_size]; the counter k carries
i div chunk_size + 1, which numbers the parts 1, 2, 3, ... .  The fuel
argument only bounds the recursion depth: the chunk size is at least 5
at the call site, so every step consumes at least one sentence and fuel
equal to the number of sentences is never exhausted early. -/
def chunksGo (cs : Nat) : Nat → Nat → List String → List Section
  | _, _, [] => []
  | 0, _, _ :: _ => []
  | fuel + 1, k, s :: ss =>
    let content := String.intercalate " " ((s :: ss).take cs)
    { id := "Part_" ++ toString k, title := "Part " ++ toString k,
      content := content, word_count := pyWordCount content }
      :: chunksGo cs fuel (k + 1) ((s :: ss).drop cs)

/-- The artificial-section fallback of _extract_document_sections. -/
def artificialSections (document_text : String) : List Section :=
  let sentences := sent_tokenize document_text
  let chunk_size := max 5 (sentences.length / 10)
  chunksGo chunk_size sentences.length 1 sentences

/-- Lean model of DocumentAwareAnalyzer._extract_document_sections: the
pattern phase, then the sentence-chunk fallback when it found nothing. -/
def extract_document_sections (document_text : String) : List Section :=
  let sections := patternSections document_text
  if sections.isEmpty then artificialSections document_text else sections

/-! ## Analyzer state and set_main_document -/

/-- The document-related mutable attributes of DocumentAwareAnalyzer.  The
TF-IDF matrix produced by tfidf_vectorizer.fit_transform (external
sklearn) is modelled by the list of section texts the vector space was
fitted on, which is exactly the identity of the index that the claims
speak about. -/
structure AnalyzerState where
  main_document : Option String
  document_title : Option String
  document_sections : Option (List Section)
  document_embeddings : Option (List String)
deriving DecidableEq

/-- The state right after __init__: no document, no sections, no index. -/
def initState : AnalyzerState :=
  { main_document := none, document_title := none,
    document_sections := none, document_embeddings := none }

/-- Lean model of set_main_document.  The guard if self.document_sections:
of the source skips the re-fit when the freshly extracted section list is
empty, in which case the previously fitted index is left in place. -/
def set_main_document (st : AnalyzerState) (document_text document_title : String) :
    AnalyzerState :=
  let sections := extract_document_sections document_text
  { main_document := some document_text,
    document_title := some document_title,
    document_sections := some sections,
    document_embeddings :=
      if sections.isEmpty then st.document_embeddings
      else some (sections.map Section.content) }

/-! ## Relevance scoring (DocumentAwareAnalyzer.analyze_comment_relevance) -/

/-- Result dict of analyze_comment_relevance.  The all_similarities key is
absent from the degenerate no-document result, hence the Option. -/
structure RelevanceResult where
  relevance_score : ℚ
  most_relevant_section : Option Section
  relevance_category : String
  all_similarities : Option (List ℚ)
deriving DecidableEq

/-- The fixed legal/domain keyword list of analyze_comment_relevance. -/
def legal_keywords : List String :=
  ["section", "clause", "article", "amendment", "act", "law", "regulation",
   "provision", "requirement", "compliance", "penalty", "fine", "director",
   "company", "board", "shareholder", "csr", "remuneration", "disqualification"]

/-- Matches the regex section\s+(\d+) at the head of the list: the literal,
at least one whitespace character, at least one digit.  Returns the
remainder after the digits, where re.findall resumes. -/
def matchSecRef (l : List Char) : Option (List Char) := do
  let r ← matchLit "section".data l
  let (sp, r1) := r.span pyIsSpace
  if sp.isEmpty then none
  else
    let (d, r2) := r1.span Char.isDigit
    if d.isEmpty then none else some r2

/-- Scanning loop of len(re.findall(r"section\s+(\d+)", comment_lower)). -/
def countSecRefsGo : Nat → List Char → Nat
  | 0, _ => 0
  | _ + 1, [] => 0
  | fuel + 1, c :: rest =>
    match matchSecRef (c :: rest) with
    | some r => 1 + countSecRefsGo fuel r
    | none => countSecRefsGo fuel rest

/-- Number of occurrences of the pattern section\s+(\d+) in a string. -/
def countSectionRefs (s : String) : Nat :=
  countSecRefsGo (s.data.length + 1) s.data

/-- The keyword boost of analyze_comment_relevance: 0.1 added per legal
keyword occurring in the lower-cased comment, plus 0.2 per occurrence of
section followed by a number. -/
def keywordBoost (comment : String) : ℚ :=
  let comment_lower := pyLower comment
  let base := legal_keywords.foldl
    (fun acc keyword =>
      if containsSub keyword.data comment_lower.data then acc + 0.1 else acc) 0
  let n := countSectionRefs comment_lower
  if n ≠ 0 then base + 0.2 * (n : ℚ) else base

/-- The non-degenerate body of analyze_comment_relevance, with the cosine
similarities of the comment against the section vectors (computed by
external sklearn code) passed in as a list. -/
def relevanceCore (similarities : List ℚ) (sections : List Section) (comment : String) :
    RelevanceResult :=
  let boost := keywordBoost comment
  let boosted := similarities.map (fun s => s + boost)
  let max_similarity_idx := np_argmax boosted
  let max_similarity := boosted.getD max_similarity_idx 0
  let relevance_category :=
    if max_similarity > 0.7 then "Highly Relevant"
    else if max_similarity > 0.5 then "Moderately Relevant"
    else if max_similarity > 0.3 then "Somewhat Relevant"
    else "Low Relevance"
  { relevance_score := max_similarity,
    most_relevant_section := sections.get? max_similarity_idx,
    relevance_category := relevance_category,
    all_similarities := some boosted }

/-- The degenerate result returned when no document has been loaded. -/
def unknownRelevance : RelevanceResult :=
  { relevance_score := 0, most_relevant_section := none,
    relevance_category := "Unknown", all_similarities := none }

/-- Lean model of analyze_comment_relevance over the analyzer state.  The
cosine argument stands for the external TF-IDF transform plus
cosine_similarity call, mapping the fitted section texts and the comment
to one similarity per section vector. -/
def analyze_comment_relevance (cosine : List String → String → List ℚ)
    (st : AnalyzerState) (comment : String) : RelevanceResult :=
  match st.document_embeddings, st.document_sections with
  | some emb, some secs =>
    if secs.length = 0 then unknownRelevance
    else relevanceCore (cosine emb comment) secs comment
  | some _, none => unknownRelevance
  | none, _ => unknownRelevance

/-! ## Intent classification (DocumentAwareAnalyzer.classify_comment_type) -/

/-- The classification keyword table, transcribed entry by entry in source
order.  Note that the Support list contains excellent twice and the
Question list contains unclear twice, exactly as in the source. -/
def classifications : List (String × List String) :=
  [("Support",
    ["support", "agree", "approve", "endorse", "favor", "good", "excellent",
     "beneficial", "positive", "welcome", "appreciate", "commend", "excellent",
     "great", "wonderful", "fantastic", "outstanding", "praise", "laud",
     "commendable", "admirable", "valuable", "useful", "helpful"]),
   ("Opposition",
    ["oppose", "disagree", "against", "object", "concern", "problem", "issue",
     "negative", "harmful", "damaging", "unacceptable", "reject", "criticize",
     "criticism", "flawed", "inadequate", "insufficient", "worried", "worrisome",
     "problematic", "troubling", "serious concern", "major issue"]),
   ("Suggestion",
    ["suggest", "recommend", "propose", "recommendation", "improvement",
     "modify", "change", "amend", "revise", "clarify", "should", "could",
     "might", "consider", "alternative", "better", "enhance", "strengthen",
     "improve", "refine", "adjust", "update"]),
   ("Question",
    ["question", "ask", "wonder", "unclear", "confused", "explain",
     "how", "what", "why", "when", "where", "?", "unclear", "confusion",
     "understand", "comprehension", "clarification needed", "please explain"]),
   ("Clarification",
    ["clarify", "explain", "define", "specify", "detail", "elaborate",
     "understand", "comprehension", "meaning", "interpretation", "scope",
     "extent", "coverage", "application", "implementation"]),
   ("Implementation",
    ["implement", "execute", "apply", "enforce", "timeline", "schedule",
     "process", "procedure", "mechanism", "rollout", "deployment", "phasing",
     "stages", "steps", "approach", "methodology", "framework"])]

/-- Result dict of classify_comment_type. -/
structure IntentResult where
  primary_type : String
  confidence : ℚ
  all_scores : List (String × Nat)
  is_constructive : Bool
deriving DecidableEq

/-- The category_scores dict of classify_comment_type: the raw score of a
category is sum(1 for keyword in keywords if keyword in comment_lower),
a count over the list entries. -/
def intentScores (comment : String) : List (String × Nat) :=
  let comment_lower := pyLower comment
  classifications.map
    (fun p => (p.1, p.2.countP (fun keyword => containsSub keyword.data comment_lower.data)))

/-- Lean model of classify_comment_type.  Python max over the dict keys with
the score as key function returns the first category attaining the
maximum in insertion order. -/
def classify_comment_type (comment : String) : IntentResult :=
  let category_scores : List (String × Nat) := intentScores comment
  let idx := np_argmax (category_scores.map Prod.snd)
  let primary_category := (category_scores.getD idx ("", 0)).1
  let primary_score := (category_scores.getD idx ("", 0)).2
  let total_keywords := (category_scores.map Prod.snd).sum
  let confidence : ℚ := if total_keywords > 0 then (primary_score : ℚ) / (total_keywords : ℚ) else 0
  { primary_type := primary_category,
    confidence := confidence,
    all_scores := category_scores,
    is_constructive := ["Suggestion", "Question", "Clarification"].contains primary_category }

/-- The intent raw scores as the examined claim words them: per category,
the number of DISTINCT keywords of the list occurring as substrings of
the lower-cased comment.  Written from the claim text for comparison
against classify_comment_type, which counts list entries with
multiplicity. -/
def claimDistinctScores (comment : String) : List (String × Nat) :=
  let comment_lower := pyLower comment
  classifications.map
    (fun p => (p.1, p.2.dedup.countP (fun keyword => containsSub keyword.data comment_lower.data)))

/-- The primary category the examined claim predicts: first-wins argmax over
the distinct-keyword counts. -/
def claimDistinctPrimary (comment : String) : String :=
  ((claimDistinctScores comment).getD
    (np_argmax ((claimDistinctScores comment).map Prod.snd)) ("", 0)).1

/-! ## Context-aware sentiment adjustment
(DocumentAwareAnalyzer._adjust_sentiment_for_context) -/

/-- The base sentiment dict handed to the adjuster: label and score. -/
structure BaseSentiment where
  label : String
  score : ℚ
deriving DecidableEq

/-- Result dict of _adjust_sentiment_for_context. -/
structure AdjustedSentiment where
  label : String
  score : ℚ
  original_score : ℚ
  adjustment_factor : ℚ
deriving DecidableEq

/-- Lean model of _adjust_sentiment_for_context. -/
def adjust_sentiment_for_context (base_sentiment : BaseSentiment)
    (relevance : RelevanceResult) (comment_type : IntentResult) : AdjustedSentiment :=
  let label := base_sentiment.label
  let confidence := base_sentiment.score
  let relevance_factor := relevance.relevance_score
  let adjusted0 := confidence * (0.5 + 0.5 * relevance_factor)
  let adjusted1 :=
    if comment_type.primary_type = "Support" ∧ label = "POSITIVE" then
      min 1.0 (adjusted0 * 1.2)
    else if comment_type.primary_type = "Opposition" ∧ label = "NEGATIVE" then
      min 1.0 (adjusted0 * 1.2)
    else if ["Question", "Clarification"].contains comment_type.primary_type then
      if label ≠ "NEUTRAL" then adjusted0 * 0.8 else adjusted0
    else adjusted0
  { label := label, score := adjusted1, original_score := confidence,
    adjustment_factor := if confidence > 0 then adjusted1 / confidence else 1.0 }

/-! ## Claim-level specification predicates -/

/-- The relevance-scoring contract as the examined claim states it: the boost
is 0.1 per distinct keyword of the fixed legal list occurring in the
lower-cased comment plus 0.2 per occurrence of section followed by a
number; the returned score is the maximum over all sections of the cosine
similarity plus that boost; the matched section is the first one attaining
the maximum; and the category comes from the fixed thresholds. -/
def RelevanceClaimSpec (similarities : List ℚ) (sections : List Section) (comment : String) :
    Prop :=
  let r := relevanceCore similarities sections comment
  let boost := keywordBoost comment
  let boosted := similarities.map (fun s => s + boost)
  boost = 0.1 * (legal_keywords.dedup.countP
        (fun keyword => containsSub keyword.data (pyLower comment).data) : ℚ)
      + 0.2 * (countSectionRefs (pyLower comment) : ℚ) ∧
  r.relevance_score ∈ boosted ∧
  (∀ x ∈ boosted, x ≤ r.relevance_score) ∧
  (∃ i, i < sections.length ∧
    r.most_relevant_section = some (sections.getD i default) ∧
    boosted.getD i 0 = r.relevance_score ∧
    ∀ j, j < i → boosted.getD j 0 < r.relevance_score) ∧
  r.relevance_category =
    (if r.relevance_score > 0.7 then "Highly Relevant"
     else if r.relevance_score > 0.5 then "Moderately Relevant"
     else if r.relevance_score > 0.3 then "Somewhat Relevant"
     else "Low Relevance")

/-- The intent-classification contract in its amended form: the returned
scores are the per-list-entry counts, the primary category is the first
one attaining the maximal raw score in enumeration order, the confidence
is the primary raw score over the total (0 when the total is 0), and the
constructive flag holds exactly for Suggestion, Question and
Clarification. -/
def IntentClaimSpec (comment : String) : Prop :=
  let scores := intentScores comment
  let r := classify_comment_type comment
  r.all_scores = scores ∧
  (∃ i, i < scores.length ∧
    r.primary_type = (scores.getD i ("", 0)).1 ∧
    (∀ j, j < scores.length → (scores.getD j ("", 0)).2 ≤ (scores.getD i ("", 0)).2) ∧
    (∀ j, j < i → (scores.getD j ("", 0)).2 < (scores.getD i ("", 0)).2) ∧
    r.confidence = (if (scores.map Prod.snd).sum = 0 then 0
      else ((scores.getD i ("", 0)).2 : ℚ) / (((scores.map Prod.snd).sum : Nat) : ℚ))) ∧
  (r.is_constructive = true ↔
    r.primary_type = "Suggestion" ∨ r.primary_type = "Question" ∨
      r.primary_type = "Clarification")

/-! ## Helper lemmas -/

/-- getD of an append, inside the left part. -/
theorem getD_append_left {α : Type} (d : α) :
    ∀ (l₁ l₂ : List α) (j : Nat), j < l₁.length → (l₁ ++ l₂).getD j d = l₁.getD j d := by
  intro l₁
  induction l₁ with
  | nil => intro l₂ j h; simp at h
  | cons a t ih =>
    intro l₂ j h
    cases j with
    | zero => simp
    | succ j =>
      simp only [List.cons_append, List.getD_cons_succ]
      exact ih l₂ j (by simpa using h)

/-- getD of an append, at the first position of the right part. -/
theorem getD_append_length {α : Type} (d : α) :
    ∀ (l₁ : List α) (x : α) (l₂ : List α), (l₁ ++ x :: l₂).getD l₁.length d = x := by
  intro l₁
  induction l₁ with
  | nil => intro x l₂; simp
  | cons a t ih => intro x l₂; simpa using ih x l₂

/-- getD through a map, inside the list. -/
theorem getD_map_lt {α β : Type} (f : α → β) (d : α) (dᵦ : β) :
    ∀ (l : List α) (j : Nat), j < l.length → (l.map f).getD j dᵦ = f (l.getD j d) := by
  intro l
  induction l with
  | nil => intro j h; simp at h
  | cons a t ih =>
    intro j h
    cases j with
    | zero => simp
    | succ j =>
      simp only [List.map_cons, List.getD_cons_succ]
      exact ih j (by simpa using h)

/-- An in-range getD is a member of the list. -/
theorem getD_mem {α : Type} (d : α) :
    ∀ (l : List α) (j : Nat), j < l.length → l.getD j d ∈ l := by
  intro l
  induction l with
  | nil => intro j h; simp at h
  | cons a t ih =>
    intro j h
    cases j with
    | zero => simp
    | succ j =>
      simp only [List.getD_cons_succ]
      exact List.mem_cons_of_mem a (ih j (by simpa using h))

/-- Every member of a list is an in-range getD. -/
theorem mem_getD {α : Type} (d : α) :
    ∀ (l : List α) (x : α), x ∈ l → ∃ j, j < l.length ∧ l.getD j d = x := by
  intro l
  induction l with
  | nil => intro x h; simp at h
  | cons a t ih =>
    intro x h
    rcases List.mem_cons.mp h with h | h
    · exact ⟨0, by simp, by simp [h]⟩
    · obtain ⟨j, hj, he⟩ := ih x h
      exact ⟨j + 1, by simpa using Nat.succ_lt_succ hj, by simpa using he⟩

/-- An in-range get? is the corresponding getD. -/
theorem get?_eq_getD {α : Type} (d : α) :
    ∀ (l : List α) (j : Nat), j < l.length → l.get? j = some (l.getD j d) := by
  intro l
  induction l with
  | nil => intro j h; simp at h
  | cons a t ih =>
    intro j h
    cases j with
    | zero => simp
    | succ j =>
      simp only [List.get?_cons_succ, List.getD_cons_succ]
      exact ih j (by simpa using h)

/-- Specification of the argmax scan: starting from a best index bi and best
value bv that describe the first maximum of a processed prefix pre, the
scan returns the index of the first maximum of the full list. -/
theorem argmaxGo_spec {α : Type} [LinearOrder α] (d : α) :
    ∀ (xs pre : List α) (bi : Nat) (bv : α),
      bi < pre.length → pre.getD bi d = bv →
      (∀ j, j < pre.length → pre.getD j d ≤ bv) →
      (∀ j, j < bi → pre.getD j d < bv) →
      argmaxGo bi bv pre.length xs < pre.length + xs.length ∧
      (∀ j, j < pre.length + xs.length →
        (pre ++ xs).getD j d ≤ (pre ++ xs).getD (argmaxGo bi bv pre.length xs) d) ∧
      (∀ j, j < argmaxGo bi bv pre.length xs →
        (pre ++ xs).getD j d < (pre ++ xs).getD (argmaxGo bi bv pre.length xs) d) := by
  intro xs
  induction xs with
  | nil =>
    intro pre bi bv hbi hbv hle hlt
    simp only [argmaxGo, List.append_nil, List.length_nil, Nat.add_zero]
    refine ⟨hbi, ?_, ?_⟩
    · intro j hj
      rw [hbv]
      exact hle j hj
    · intro j hj
      rw [hbv]
      exact hlt j hj
  | cons x xs ih =>
    intro pre bi bv hbi hbv hle hlt
    have hsplit : pre ++ x :: xs = (pre ++ [x]) ++ xs := by
      simp
    have hlen1 : (pre ++ [x]).length = pre.length + 1 := by simp
    have hx0 : (pre ++ [x]).getD pre.length d = x := getD_append_length d pre x []
    have hlentot : pre.length + (x :: xs).length = pre.length + 1 + xs.length := by
      simp only [List.length_cons]
      omega
    by_cases hx : bv < x
    · have hle' : ∀ j, j < (pre ++ [x]).length → (pre ++ [x]).getD j d ≤ x := by
        intro j hj
        rcases Nat.lt_or_ge j pre.length with h | h
        · rw [getD_append_left d pre [x] j h]
          exact le_of_lt (lt_of_le_of_lt (hle j h) hx)
        · have hj' : j = pre.length := by
            rw [hlen1] at hj
            omega
          rw [hj', hx0]
      have hlt' : ∀ j, j < pre.length → (pre ++ [x]).getD j d < x := by
        intro j hj
        rw [getD_append_left d pre [x] j hj]
        exact lt_of_le_of_lt (hle j hj) hx
      have hmain := ih (pre ++ [x]) pre.length x (by rw [hlen1]; omega) hx0 hle'
        (by intro j hj; exact hlt' j hj)
      have hgo : argmaxGo bi bv pre.length (x :: xs) = argmaxGo pre.length x (pre.length + 1) xs := by
        simp only [argmaxGo, if_pos hx]
      rw [hgo, hsplit, hlentot]
      rw [hlen1] at hmain
      exact hmain

    · have hle' : ∀ j, j < (pre ++ [x]).length → (pre ++ [x]).getD j d ≤ bv := by
        intro j hj
        rcases Nat.lt_or_ge j pre.length with h | h
        · rw [getD_append_left d pre [x] j h]
          exact hle j h
        · have hj' : j = pre.length := by
            rw [hlen1] at hj
            omega
          rw [hj', hx0]
          exact le_of_not_lt hx
      have hlt' : ∀ j, j < bi → (pre ++ [x]).getD j d < bv := by
        intro j hj
        rw [getD_append_left d pre [x] j (lt_trans hj hbi)]
        exact hlt j hj
      have hbv' : (pre ++ [x]).getD bi d = bv := by
        rw [getD_append_left d pre [x] bi hbi]
        exact hbv
      have hmain := ih (pre ++ [x]) bi bv (by rw [hlen1]; omega) hbv' hle' hlt'
      have hgo : argmaxGo bi bv pre.length (x :: xs) = argmaxGo bi bv (pre.length + 1) xs := by
        simp only [argmaxGo, if_neg hx]
      rw [hgo, hsplit, hlentot]
      rw [hlen1] at hmain
      exact hmain

/-- Specification of np_argmax on a non-empty list: the result is in range,
its value is an upper bound of the list, and every earlier value is
strictly below it — np.argmax returns the first maximum. -/
theorem np_argmax_spec {α : Type} [LinearOrder α] (d : α) (x : α) (xs : List α) :
    np_argmax (x :: xs) < (x :: xs).length ∧
    (∀ j, j < (x :: xs).length →
      (x :: xs).getD j d ≤ (x :: xs).getD (np_argmax (x :: xs)) d) ∧
    (∀ j, j < np_argmax (x :: xs) →
      (x :: xs).getD j d < (x :: xs).getD (np_argmax (x :: xs)) d) := by
  have h := argmaxGo_spec d xs [x] 0 x (by simp) (by simp)
    (by intro j hj; simp at hj; subst hj; simp)
    (by intro j hj; omega)
  simpa [np_argmax, Nat.add_comm] using h

/-- The keyword-boost accumulation loop equals 0.1 times the number of
matching keywords. -/
theorem foldl_keyword_boost (p : String → Bool) :
    ∀ (l : List String) (a : ℚ),
      l.foldl (fun acc keyword => if p keyword then acc + 0.1 else acc) a
        = a + 0.1 * (l.countP p : ℚ) := by
  intro l
  induction l with
  | nil => intro a; simp
  | cons x t ih =>
    intro a
    simp only [List.foldl_cons, List.countP_cons]
    by_cases hx : p x
    · rw [if_pos hx, ih]
      simp only [hx, if_true]
      push_cast
      ring
    · rw [if_neg hx, ih]
      simp [hx]

/-- Unfolds membership of a two-element string list. -/
theorem contains_pair_iff (x a b : String) :
    ([a, b].contains x = true) ↔ (x = a ∨ x = b) := by
  simp [List.contains]

/-- Unfolds membership of a three-element string list. -/
theorem contains_triple_iff (x a b c : String) :
    ([a, b, c].contains x = true) ↔ (x = a ∨ x = b ∨ x = c) := by
  simp [List.contains]

/-- The sentence-splitting loop never returns the empty list unless both the
input and the accumulator are empty. -/
theorem sentSplitGo_ne_nil :
    ∀ (l : List Char) (acc : List Char), l ≠ [] ∨ acc ≠ [] → sentSplitGo acc l ≠ [] := by
  intro l
  induction l with
  | nil =>
    intro acc h
    rcases h with h | h
    · exact absurd rfl h
    · simp only [sentSplitGo]
      rw [if_neg (by simpa using h)]
      simp
  | cons c rest ih =>
    intro acc h
    simp only [sentSplitGo]
    split
    · simp
    · exact ih (c :: acc) (Or.inr (by simp))

/-- A non-empty text has at least one sentence in the tokenizer model. -/
theorem sent_tokenize_ne_nil (text : String) (h : text ≠ "") : sent_tokenize text ≠ [] := by
  have hd : text.data ≠ [] := by
    intro hh
    apply h
    cases text with
    | mk l =>
      have hl : l = [] := hh
      rw [hl]
  unfold sent_tokenize
  exact sentSplitGo_ne_nil text.data [] (Or.inl hd)

/-- The part identifiers produced by the chunking loop are Part_k, Part_k+1,
and so on, provided the fuel covers the sentence list and the chunk size
is positive. -/
theorem chunksGo_id (cs : Nat) (hcs : 1 ≤ cs) :
    ∀ (fuel : Nat) (l : List String) (k i : Nat), l.length ≤ fuel →
      i < (chunksGo cs fuel k l).length →
      ((chunksGo cs fuel k l).getD i default).id = "Part_" ++ toString (k + i) := by
  intro fuel
  induction fuel with
  | zero =>
    intro l k i hlen hi
    cases l with
    | nil => simp [chunksGo] at hi
    | cons s ss => simp at hlen
  | succ fuel ih =>
    intro l k i hlen hi
    cases l with
    | nil => simp [chunksGo] at hi
    | cons s ss =>
      cases i with
      | zero => simp [chunksGo]
      | succ i =>
        have hlen' : ((s :: ss).drop cs).length ≤ fuel := by
          simp only [List.length_drop, List.length_cons]
          simp only [List.length_cons] at hlen
          omega
        have hi' : i < (chunksGo cs fuel (k + 1) ((s :: ss).drop cs)).length := by
          simp only [chunksGo, List.length_cons] at hi
          omega
        have hrec := ih ((s :: ss).drop cs) (k + 1) i hlen' hi'
        simp only [chunksGo, List.getD_cons_succ]
        rw [hrec]
        have harith : k + 1 + i = k + (i + 1) := by omega
        rw [harith]

/-! ## Claim theorems -/

/-- C1: for every comment scored against a built index, the returned
relevance_score is the maximum over all sections of the cosine similarity
plus the boost, where the boost is 0.1 per distinct keyword of the fixed
19-term legal list occurring in the lower-cased comment plus 0.2 per
occurrence of section followed by a number; the boost is added to every
similarity before the maximum; the matched section is the first one
attaining the maximum; and the category follows the 0.7 / 0.5 / 0.3
thresholds. -/
theorem c1_relevance_scoring (similarities : List ℚ) (sections : List Section)
    (comment : String) (hne : sections ≠ [])
    (hlen : similarities.length = sections.length) :
    RelevanceClaimSpec similarities sections comment := by
  simp only [RelevanceClaimSpec]
  refine ⟨?_, ?_⟩
  · simp only [keywordBoost]
    rw [foldl_keyword_boost]
    rw [List.dedup_eq_self.mpr (by decide : legal_keywords.Nodup)]
    by_cases hn : countSectionRefs (pyLower comment) = 0
    · rw [if_neg (not_not.mpr hn), hn]
      push_cast
      ring
    · rw [if_pos hn]
      ring
  · cases similarities with
    | nil =>
      exfalso
      cases sections with
      | nil => exact hne rfl
      | cons a t => simp at hlen
    | cons s ss =>
      simp only [List.map_cons]
      obtain ⟨hidx, hub, hstrict⟩ :=
        np_argmax_spec (0 : ℚ)
          (s + keywordBoost comment) (ss.map (fun v => v + keywordBoost comment))
      have hscore : (relevanceCore (s :: ss) sections comment).relevance_score
          = ((s + keywordBoost comment) :: ss.map (fun v => v + keywordBoost comment)).getD
              (np_argmax
                ((s + keywordBoost comment) :: ss.map (fun v => v + keywordBoost comment))) 0 :=
        rfl
      have hsecf : (relevanceCore (s :: ss) sections comment).most_relevant_section
          = sections.get?
              (np_argmax
                ((s + keywordBoost comment) :: ss.map (fun v => v + keywordBoost comment))) :=
        rfl
      have hlen2 :
          ((s + keywordBoost comment) :: ss.map (fun v => v + keywordBoost comment)).length
            = sections.length := by
        simpa using hlen
      refine ⟨?_, ?_, ?_, ?_⟩
      · rw [hscore]
        exact getD_mem 0 _ _ hidx
      · intro x hx
        obtain ⟨j, hj, hje⟩ := mem_getD 0 _ x hx
        rw [hscore, ← hje]
        exact hub j hj
      · refine ⟨np_argmax
          ((s + keywordBoost comment) :: ss.map (fun v => v + keywordBoost comment)),
          ?_, ?_, ?_, ?_⟩
        · rw [← hlen2]
          exact hidx
        · rw [hsecf]
          exact get?_eq_getD default sections _ (hlen2 ▸ hidx)
        · rw [hscore]
        · intro j hj
          rw [hscore]
          exact hstrict j hj
      · rfl

/-- Witness for C1: a concrete two-section probe where the boost 0.4 comes
from the keywords penalty and section together with one mention of
section 5. -/
theorem c1_relevance_scoring_witness :
    (([{ id := "1", title := "Section 1", content := "alpha", word_count := 1 },
       { id := "2", title := "Section 2", content := "penalty text", word_count := 2 }] :
        List Section) ≠ [] ∧
     ([0.1, 0.2] : List ℚ).length
        = ([{ id := "1", title := "Section 1", content := "alpha", word_count := 1 },
            { id := "2", title := "Section 2", content := "penalty text", word_count := 2 }] :
            List Section).length) ∧
    RelevanceClaimSpec [0.1, 0.2]
      [{ id := "1", title := "Section 1", content := "alpha", word_count := 1 },
       { id := "2", title := "Section 2", content := "penalty text", word_count := 2 }]
      "I am worried about the penalty under section 5" :=
  ⟨⟨by decide, by decide⟩, c1_relevance_scoring _ _ _ (by decide) (by decide)⟩

/-- C2 (amended): for every comment the classifier returns the per-list-entry
keyword counts as raw scores (entries repeated in the source lists count
once per occurrence), picks as primary the first category attaining the
maximal raw score in enumeration order, returns confidence equal to the
primary score over the total (0 when the total is 0), and flags
constructive exactly for Suggestion, Question and Clarification. -/
theorem c2_intent_classification (comment : String) : IntentClaimSpec comment := by
  have h6 : (intentScores comment).length = 6 := by
    simp [intentScores, classifications]
  cases hv : (intentScores comment).map Prod.snd with
  | nil =>
    have hlen0 := congrArg List.length hv
    simp [h6] at hlen0
  | cons v vrest =>
    obtain ⟨hidx, hub, hstrict⟩ := np_argmax_spec (0 : Nat) v vrest
    rw [← hv] at hidx hub hstrict
    have hlenv : ((intentScores comment).map Prod.snd).length = (intentScores comment).length := by
      simp
    rw [hlenv] at hidx hub
    simp only [IntentClaimSpec]
    refine ⟨rfl, ⟨np_argmax ((intentScores comment).map Prod.snd), hidx, rfl, ?_, ?_, ?_⟩, ?_⟩
    · intro j hj
      have h := hub j hj
      rw [getD_map_lt Prod.snd ("", 0) 0 _ j hj,
        getD_map_lt Prod.snd ("", 0) 0 _ _ hidx] at h
      exact h
    · intro j hj
      have h := hstrict j hj
      have hjlen : j < (intentScores comment).length := lt_trans hj hidx
      rw [getD_map_lt Prod.snd ("", 0) 0 _ j hjlen,
        getD_map_lt Prod.snd ("", 0) 0 _ _ hidx] at h
      exact h
    · have hconf : (classify_comment_type comment).confidence
          = (if ((intentScores comment).map Prod.snd).sum > 0 then
              (((intentScores comment).getD
                  (np_argmax ((intentScores comment).map Prod.snd)) ("", 0)).2 : ℚ)
                / ((((intentScores comment).map Prod.snd).sum : Nat) : ℚ)
             else 0) := rfl
      rw [hconf]
      rcases Nat.eq_zero_or_pos ((intentScores comment).map Prod.snd).sum with h | h
      · rw [if_neg (by omega), if_pos h]
      · rw [if_pos h, if_neg (by omega)]
    · have hic : (classify_comment_type comment).is_constructive
          = (["Suggestion", "Question", "Clarification"].contains
              (classify_comment_type comment).primary_type) := rfl
      rw [hic]
      exact contains_triple_iff (classify_comment_type comment).primary_type
        "Suggestion" "Question" "Clarification"

/-- Counterexample to C2 as stated: the Support list repeats excellent, so
the comment excellent gets raw Support score 2 although only one distinct
keyword occurs; and on excellent how what the code picks Support (raw
scores tie 2 and 2, first wins) while distinct counting as claimed would
make Question the unique argmax. -/
theorem c2_intent_distinct_counterexample :
    (classify_comment_type "excellent").all_scores ≠ claimDistinctScores "excellent" ∧
    (classify_comment_type "excellent how what").primary_type = "Support" ∧
    claimDistinctPrimary "excellent how what" = "Question" :=
  ⟨by decide, by decide, by decide⟩

/-- C3: the adjusted confidence is confidence times (0.5 + 0.5 times the
relevance score), then multiplied by 1.2 and capped at 1.0 when the
intent reinforces the label (Support with POSITIVE or Opposition with
NEGATIVE), multiplied by 0.8 when the intent is Question or Clarification
and the label is not NEUTRAL, and unchanged otherwise. -/
theorem c3_sentiment_adjustment (base_sentiment : BaseSentiment)
    (relevance : RelevanceResult) (comment_type : IntentResult) :
    (adjust_sentiment_for_context base_sentiment relevance comment_type).score =
      (if (comment_type.primary_type = "Support" ∧ base_sentiment.label = "POSITIVE")
          ∨ (comment_type.primary_type = "Opposition" ∧ base_sentiment.label = "NEGATIVE") then
        min 1.0 ((base_sentiment.score * (0.5 + 0.5 * relevance.relevance_score)) * 1.2)
      else if (comment_type.primary_type = "Question" ∨ comment_type.primary_type = "Clarification")
          ∧ base_sentiment.label ≠ "NEUTRAL" then
        (base_sentiment.score * (0.5 + 0.5 * relevance.relevance_score)) * 0.8
      else base_sentiment.score * (0.5 + 0.5 * relevance.relevance_score)) := by
  have hc : (["Question", "Clarification"].contains comment_type.primary_type = true)
      ↔ (comment_type.primary_type = "Question" ∨ comment_type.primary_type = "Clarification") :=
    contains_pair_iff comment_type.primary_type "Question" "Clarification"
  by_cases h1 : comment_type.primary_type = "Support" ∧ base_sentiment.label = "POSITIVE"
  · rw [if_pos (Or.inl h1)]
    simp only [adjust_sentiment_for_context, if_pos h1]
  · by_cases h2 : comment_type.primary_type = "Opposition" ∧ base_sentiment.label = "NEGATIVE"
    · rw [if_pos (Or.inr h2)]
      simp only [adjust_sentiment_for_context, if_neg h1, if_pos h2]
    · rw [if_neg (by tauto)]
      by_cases h3 : comment_type.primary_type = "Question"
          ∨ comment_type.primary_type = "Clarification"
      · by_cases h4 : base_sentiment.label = "NEUTRAL"
        · rw [if_neg (by tauto)]
          simp only [adjust_sentiment_for_context, if_neg h1, if_neg h2,
            if_pos (hc.mpr h3), if_neg (not_not.mpr h4)]
        · rw [if_pos ⟨h3, h4⟩]
          simp only [adjust_sentiment_for_context, if_neg h1, if_neg h2,
            if_pos (hc.mpr h3), if_pos h4]
      · rw [if_neg (by tauto)]
        have hcf : (["Question", "Clarification"].contains comment_type.primary_type) = false := by
          rcases hb : (["Question", "Clarification"].contains comment_type.primary_type) with _ | _
          · rfl
          · exact absurd (hc.mp hb) h3
        simp only [adjust_sentiment_for_context, if_neg h1, if_neg h2, hcf,
          Bool.false_eq_true, if_false]

/-- C4: for every non-empty document text, extraction returns at least one
section; and when the pattern phase finds nothing, the result is the
sentence-chunk fallback whose sections are numbered Part_1, Part_2 and
so on. -/
theorem c4_extract_nonempty (text : String) (h : text ≠ "") :
    extract_document_sections text ≠ [] ∧
    (patternSections text = [] →
      extract_document_sections text = artificialSections text ∧
      ∀ i, i < (extract_document_sections text).length →
        ((extract_document_sections text).getD i default).id = "Part_" ++ toString (i + 1)) := by
  by_cases hp : patternSections text = []
  · have hext : extract_document_sections text = artificialSections text := by
      simp [extract_document_sections, hp]
    have hcs : 1 ≤ max 5 ((sent_tokenize text).length / 10) := by
      have := Nat.le_max_left 5 ((sent_tokenize text).length / 10)
      omega
    constructor
    · rw [hext]
      simp only [artificialSections]
      cases hst : sent_tokenize text with
      | nil => exact absurd hst (sent_tokenize_ne_nil text h)
      | cons s0 srest =>
        simp only [List.length_cons, chunksGo]
        cases hmax : max 5 ((s0 :: srest).length / 10) with
        | zero =>
          exfalso
          have := Nat.le_max_left 5 ((s0 :: srest).length / 10)
          omega
        | succ c => simp [chunksGo]
    · intro _
      refine ⟨hext, ?_⟩
      intro i hi
      rw [hext] at hi ⊢
      simp only [artificialSections] at hi ⊢
      have hid := chunksGo_id (max 5 ((sent_tokenize text).length / 10)) hcs
        (sent_tokenize text).length (sent_tokenize text) 1 i (Nat.le_refl _) hi
      rw [hid]
      have harith : 1 + i = i + 1 := by omega
      rw [harith]
  · constructor
    · have hext : extract_document_sections text = patternSections text := by
        simp [extract_document_sections,
          (by simpa [List.isEmpty_iff] using hp : (patternSections text).isEmpty = false)]
      rw [hext]
      exact hp
    · intro hcontra
      exact absurd hcontra hp

/-- Witness for C4 at the concrete non-empty document hello world, which has
no structural patterns and one sentence. -/
theorem c4_extract_nonempty_witness :
    ("hello world" ≠ "") ∧
    (extract_document_sections "hello world" ≠ [] ∧
      (patternSections "hello world" = [] →
        extract_document_sections "hello world" = artificialSections "hello world" ∧
        ∀ i, i < (extract_document_sections "hello world").length →
          ((extract_document_sections "hello world").getD i default).id
            = "Part_" ++ toString (i + 1))) :=
  ⟨by decide, c4_extract_nonempty "hello world" (by decide)⟩

/-- C5: with no document loaded (the freshly initialised state), relevance
analysis returns score 0, no matched section and category Unknown, for
every comment and every similarity oracle — in particular for comments
such as section 5 that would trigger the keyword boost. -/
theorem c5_unbuilt_index_unknown (cosine : List String → String → List ℚ) (comment : String) :
    analyze_comment_relevance cosine initState comment = unknownRelevance ∧
    (analyze_comment_relevance cosine initState comment).relevance_score = 0 ∧
    (analyze_comment_relevance cosine initState comment).most_relevant_section = none ∧
    (analyze_comment_relevance cosine initState comment).relevance_category = "Unknown" :=
  ⟨rfl, rfl, rfl, rfl⟩

/-- C6 (amended): set_main_document always replaces the section list with the
sections of the new document; it rebuilds the index against exactly those
sections whenever the new document yields at least one section, but when
the new document yields zero sections the previous index is retained
unchanged. -/
theorem c6_set_document_index (st : AnalyzerState) (document_text document_title : String) :
    (set_main_document st document_text document_title).document_sections
        = some (extract_document_sections document_text) ∧
    (extract_document_sections document_text ≠ [] →
      (set_main_document st document_text document_title).document_embeddings
        = some ((extract_document_sections document_text).map Section.content)) ∧
    (extract_document_sections document_text = [] →
      (set_main_document st document_text document_title).document_embeddings
        = st.document_embeddings) := by
  refine ⟨rfl, ?_, ?_⟩
  · intro hne
    simp only [set_main_document]
    rw [if_neg (by simpa [List.isEmpty_iff] using hne)]
  · intro hnil
    simp only [set_main_document]
    rw [if_pos (by simpa [List.isEmpty_iff] using hnil)]

/-- Witness for C6 (amended): loading hello world fits the index on its one
artificial section; loading the empty document afterwards extracts zero
sections and keeps the previous index. -/
theorem c6_set_document_index_witness :
    (extract_document_sections "hello world" ≠ [] ∧
      (set_main_document initState "hello world" "A").document_embeddings
        = some ((extract_document_sections "hello world").map Section.content)) ∧
    (extract_document_sections "" = [] ∧
      (set_main_document (set_main_document initState "hello world" "A") "" "B").document_embeddings
        = (set_main_document initState "hello world" "A").document_embeddings) :=
  ⟨⟨by decide, (c6_set_document_index initState "hello world" "A").2.1 (by decide)⟩,
   ⟨by decide,
    (c6_set_document_index (set_main_document initState "hello world" "A") "" "B").2.2
      (by decide)⟩⟩

/-- Counterexample to C6 as stated: after loading hello world and then the
empty document, the section list is empty but the index still holds the
vector space fitted on the previous document, so the index is neither
unbuilt nor built against the newly loaded sections. -/
theorem c6_stale_index_counterexample :
    (set_main_document (set_main_document initState "hello world" "A") "" "B").document_sections
        = some [] ∧
    (set_main_document (set_main_document initState "hello world" "A") "" "B").document_embeddings
        = some ["hello world"] ∧
    ¬((set_main_document (set_main_document initState "hello world" "A") "" "B").document_embeddings
          = none ∨
      (set_main_document (set_main_document initState "hello world" "A") "" "B").document_embeddings
          = some ((((set_main_document (set_main_document initState "hello world" "A") "" "B").document_sections).getD []).map
              Section.content)) :=
  ⟨by decide, by decide, by decide⟩

/-- C7 (amended): the empty document text yields zero sections: the pattern
phase finds nothing and the sentence fallback finds no sentences, so the
chunking loop emits nothing. -/
theorem c7_empty_document_no_sections :
    extract_document_sections "" = [] ∧ patternSections "" = [] ∧ sent_tokenize "" = [] :=
  ⟨by decide, by decide, by decide⟩

/-- Counterexample to C7 as stated: the empty document does not yield exactly
one degenerate empty-content artificial section, because it yields no
section at all. -/
theorem c7_empty_document_counterexample :
    ¬ ∃ s : Section, extract_document_sections "" = [s] ∧ s.content = "" := by
  intro hex
  obtain ⟨s, hs, _⟩ := hex
  rw [(by decide : extract_document_sections "" = [])] at hs
  exact List.noConfusion hs

/-- C8 (amended): the empty comment is classified without failing, with zero
confidence and the degenerate primary category Support — the first
category in enumeration order, since all six raw scores are zero — and
not flagged constructive. -/
theorem c8_empty_comment_classification :
    (classify_comment_type "").primary_type = "Support" ∧
    (classify_comment_type "").confidence = 0 ∧
    (classify_comment_type "").all_scores
      = [("Support", 0), ("Opposition", 0), ("Suggestion", 0),
         ("Question", 0), ("Clarification", 0), ("Implementation", 0)] ∧
    (classify_comment_type "").is_constructive = false := by
  have htot : ((intentScores "").map Prod.snd).sum = 0 := by decide
  refine ⟨by decide, ?_, by decide, by decide⟩
  have hconf : (classify_comment_type "").confidence
      = (if ((intentScores "").map Prod.snd).sum > 0 then
          (((intentScores "").getD (np_argmax ((intentScores "").map Prod.snd)) ("", 0)).2 : ℚ)
            / ((((intentScores "").map Prod.snd).sum : Nat) : ℚ)
         else 0) := rfl
  rw [hconf, htot]
  simp

/-- Counterexample to C8 as stated: the degenerate category returned for the
empty comment is Support, not Unknown. -/
theorem c8_empty_comment_counterexample :
    (classify_comment_type "").primary_type ≠ "Unknown" := by
  decide

/-- C9: the adjustment never divides by zero: with original confidence 0 the
returned ratio is exactly 1.0, and with positive original confidence the
ratio is the adjusted confidence divided by the original one. -/
theorem c9_adjustment_ratio (base_sentiment : BaseSentiment)
    (relevance : RelevanceResult) (comment_type : IntentResult) :
    (base_sentiment.score = 0 →
      (adjust_sentiment_for_context base_sentiment relevance comment_type).adjustment_factor
        = 1) ∧
    (0 < base_sentiment.score →
      (adjust_sentiment_for_context base_sentiment relevance comment_type).adjustment_factor
        = (adjust_sentiment_for_context base_sentiment relevance comment_type).score
            / base_sentiment.score) := by
  constructor
  · intro h0
    have hfac : (adjust_sentiment_for_context base_sentiment relevance comment_type).adjustment_factor
        = (if base_sentiment.score > 0 then
            (adjust_sentiment_for_context base_sentiment relevance comment_type).score
              / base_sentiment.score
           else 1.0) := rfl
    rw [hfac, if_neg (by rw [h0]; exact lt_irrefl 0)]
    norm_num
  · intro hpos
    have hfac : (adjust_sentiment_for_context base_sentiment relevance comment_type).adjustment_factor
        = (if base_sentiment.score > 0 then
            (adjust_sentiment_for_context base_sentiment relevance comment_type).score
              / base_sentiment.score
           else 1.0) := rfl
    rw [hfac, if_pos hpos]

/-- Witness for C9 on both sides: zero confidence gives ratio 1, and the
positive-confidence case divides the adjusted score by the original. -/
theorem c9_adjustment_ratio_witness :
    ((⟨"POSITIVE", 0⟩ : BaseSentiment).score = 0 ∧
      (adjust_sentiment_for_context ⟨"POSITIVE", 0⟩ unknownRelevance
        ⟨"Support", 0, [], false⟩).adjustment_factor = 1) ∧
    ((0 : ℚ) < (⟨"NEGATIVE", 1/2⟩ : BaseSentiment).score ∧
      (adjust_sentiment_for_context ⟨"NEGATIVE", 1/2⟩ unknownRelevance
        ⟨"Support", 0, [], false⟩).adjustment_factor
        = (adjust_sentiment_for_context ⟨"NEGATIVE", 1/2⟩ unknownRelevance
            ⟨"Support", 0, [], false⟩).score / (⟨"NEGATIVE", 1/2⟩ : BaseSentiment).score) :=
  ⟨⟨rfl, (c9_adjustment_ratio ⟨"POSITIVE", 0⟩ unknownRelevance ⟨"Support", 0, [], false⟩).1 rfl⟩,
   ⟨by norm_num,
    (c9_adjustment_ratio ⟨"NEGATIVE", 1/2⟩ unknownRelevance ⟨"Support", 0, [], false⟩).2
      (by norm_num)⟩⟩

/-- C10: the adjustment only changes the confidence: the returned label is
the input label and the returned original score is the input confidence,
for all inputs. -/
theorem c10_adjustment_frame (base_sentiment : BaseSentiment)
    (relevance : RelevanceResult) (comment_type : IntentResult) :
    (adjust_sentiment_for_context base_sentiment relevance comment_type).label
        = base_sentiment.label ∧
    (adjust_sentiment_for_context base_sentiment relevance comment_type).original_score
        = base_sentiment.score :=
  ⟨rfl, rfl⟩

end EConsult
